import Mathlib

/-!
Verification of the streetSignal district-processing pipeline.

The definitions below are a shallow embedding of the Python sources
src/utils.py (string and geo utilities, geocoding, caching, rate limiting)
and src/processor.py (the DistrictProcessor pipeline).  Python floats are
modelled as real numbers, Python dicts as insertion-ordered association
lists, and the HTTP boundary as explicit environment records whose fields
give the outcome of each outbound call: either a value or the message of
the exception the call raised.
-/

namespace StreetSignal

/-! ### Python string primitives

The sources use only the string methods upper, lower, strip,
replace(" ", "") and startswith.  They are embedded as structural
recursion over the character data so that they evaluate inside the
kernel; on the ASCII strings this repository manipulates they agree with
Python semantics. -/

/-- Python upper method on strings. -/
def pyUpper (s : String) : String := ⟨s.data.map Char.toUpper⟩

/-- Python lower method on strings. -/
def pyLower (s : String) : String := ⟨s.data.map Char.toLower⟩

/-- Python replace of every space by the empty string. -/
def pyRemoveSpaces (s : String) : String := ⟨s.data.filter (fun c => c ≠ ' ')⟩

/-- Python startswith: p is a prefix of s. -/
def pyStartsWith (s p : String) : Bool := decide (p.data <+: s.data)

/-- Python strip: drop whitespace from both ends. -/
def pyStrip (s : String) : String :=
  ⟨((s.data.dropWhile Char.isWhitespace).reverse.dropWhile Char.isWhitespace).reverse⟩

/-- Lookup with default in an insertion-ordered association list,
modelling Python dict.get(k, d). -/
def alistGetD {α : Type} (l : List (String × α)) (k : String) (d : α) : α :=
  match l.find? (fun q => decide (q.1 = k)) with
  | some q => q.2
  | none => d

/-! ### Geo math (utils.py, haversine_distance) -/

/-- Python math.radians. -/
noncomputable def radians (deg : ℝ) : ℝ := deg * Real.pi / 180

/-- Python math.atan2, by the standard quadrant case split. -/
noncomputable def atan2 (y x : ℝ) : ℝ :=
  if 0 < x then Real.arctan (y / x)
  else if x < 0 then
    (if 0 ≤ y then Real.arctan (y / x) + Real.pi else Real.arctan (y / x) - Real.pi)
  else
    (if 0 < y then Real.pi / 2 else if y < 0 then -(Real.pi / 2) else 0)

/-- The intermediate value a of haversine_distance:
sin(delta_phi/2)^2 + cos(phi1)*cos(phi2)*sin(delta_lambda/2)^2,
with phi1 = radians lat1, phi2 = radians lat2,
delta_phi = radians (lat2 - lat1), delta_lambda = radians (lon2 - lon1). -/
noncomputable def hav_a (lat1 lon1 lat2 lon2 : ℝ) : ℝ :=
  Real.sin (radians (lat2 - lat1) / 2) ^ 2 +
    Real.cos (radians lat1) * Real.cos (radians lat2) *
      Real.sin (radians (lon2 - lon1) / 2) ^ 2

/-- utils.haversine_distance: R * c with R = 6371000 and
c = 2 * atan2(sqrt a, sqrt (1 - a)). -/
noncomputable def haversine_distance (lat1 lon1 lat2 lon2 : ℝ) : ℝ :=
  6371000 *
    (2 * atan2 (Real.sqrt (hav_a lat1 lon1 lat2 lon2))
               (Real.sqrt (1 - hav_a lat1 lon1 lat2 lon2)))

/-! ### Rate limiting (utils.py, acquire_with_wait and query_overpass)

Real time is modelled by accounting: succeeds n says whether the n-th
try_acquire call on the limiter succeeds, and outcomes record how many
seconds the caller slept before the call that returned or raised. -/

/-- Outcome of acquiring a rate-limit slot: the slot was acquired at the
given try_acquire attempt after sleeping for waited seconds, or a
BucketFullException surfaced to the caller after waiting that long. -/
inductive AcqOutcome where
  | acquired (attempt : ℕ) (waited : ℚ)
  | bucketFull (waited : ℚ)

/-- The while-loop of acquire_with_wait: with remaining iterations left,
try attempt number attempt (total_waited = attempt * 0.5 seconds so far);
on BucketFullException sleep 0.5s and continue.  When the loop budget is
exhausted the final unconditional try_acquire either returns or lets the
exception propagate. -/
def acquireLoop (succeeds : ℕ → Bool) : ℕ → ℕ → AcqOutcome
  | 0, attempt =>
    if succeeds attempt then .acquired attempt ((attempt : ℚ) * (1/2))
    else .bucketFull ((attempt : ℚ) * (1/2))
  | remaining + 1, attempt =>
    if succeeds attempt then .acquired attempt ((attempt : ℚ) * (1/2))
    else acquireLoop succeeds remaining (attempt + 1)

/-- utils.acquire_with_wait with wait_time = 0.5 and max_wait = 10.0 as at
every call site: the while-loop runs exactly 20 iterations
(total_waited = 0, 0.5, ..., 9.5 all < 10), then the final attempt. -/
def acquire_with_wait (succeeds : ℕ → Bool) : AcqOutcome :=
  acquireLoop succeeds 20 0

/-- The slot acquisition of utils.query_overpass: a single bare
try_acquire on the overpass limiter, with no waiting wrapper; a full
bucket raises immediately (BucketFullException is not one of the retried
request exception types). -/
def overpass_acquire (succeeds : ℕ → Bool) : AcqOutcome :=
  if succeeds 0 then .acquired 0 0 else .bucketFull 0

/-! ### Street cache and street geocoding (utils.py, GeocodeCache and
get_area_and_coords) -/

/-- A row of the street_cache table: lat/lon are nullable, area and the
raw payload are strings (the raw JSON payload is abbreviated to its
identifying tag). -/
structure StreetEntry where
  lat : Option ℝ
  lon : Option ℝ
  area : String
  raw : String

/-- GeocodeCache._street_key. -/
def street_key (postcode street : String) : String :=
  pyStrip (pyUpper postcode) ++ "|" ++ pyStrip (pyLower street)

/-- GeocodeCache.get_street: lookup by key. -/
def get_street (cache : List (String × StreetEntry)) (postcode street : String) :
    Option StreetEntry :=
  match cache.find? (fun q => decide (q.1 = street_key postcode street)) with
  | some q => some q.2
  | none => none

/-- GeocodeCache.set_street: SQLite upsert on the key. -/
def set_street (cache : List (String × StreetEntry)) (postcode street : String)
    (lat lon : Option ℝ) (area : String) (raw : String) :
    List (String × StreetEntry) :=
  let k := street_key postcode street
  if cache.any (fun q => decide (q.1 = k)) then
    cache.map (fun q => if q.1 = k then (q.1, ⟨lat, lon, area, raw⟩) else q)
  else cache ++ [(k, ⟨lat, lon, area, raw⟩)]

/-- Environment for one street lookup: outcome of geocode_street (the
first search result coordinates, or none when the provider returns zero
results) and of reverse_geocode (the area label). -/
structure StreetGeoEnv where
  geocodeResult : Option (ℝ × ℝ)
  areaResult : String

/-- The value returned by get_area_and_coords. -/
structure AreaCoords where
  area : String
  lat : Option ℝ
  lon : Option ℝ

/-- utils.get_area_and_coords, returning the value, the cache after the
call, and how many times the geocoding provider (geocode_street) was
queried.  A cache hit short-circuits only when both cached coordinates
are non-null; otherwise the street is geocoded, the result (including the
negative case) is written to the cache, and the value is returned. -/
def get_area_and_coords (env : StreetGeoEnv) (cache : List (String × StreetEntry))
    (postcode street : String) :
    AreaCoords × List (String × StreetEntry) × ℕ :=
  match get_street cache postcode street with
  | some e =>
    match e.lat, e.lon with
    | some la, some lo => (⟨e.area, some la, some lo⟩, cache, 0)
    | some _la, none =>
      match env.geocodeResult with
      | none => (⟨"", none, none⟩,
                 set_street cache postcode street none none "" "geocode_not_found", 1)
      | some (glat, glon) =>
        (⟨env.areaResult, some glat, some glon⟩,
         set_street cache postcode street (some glat) (some glon) env.areaResult "ok", 1)
    | none, _ =>
      match env.geocodeResult with
      | none => (⟨"", none, none⟩,
                 set_street cache postcode street none none "" "geocode_not_found", 1)
      | some (glat, glon) =>
        (⟨env.areaResult, some glat, some glon⟩,
         set_street cache postcode street (some glat) (some glon) env.areaResult "ok", 1)
  | none =>
    match env.geocodeResult with
    | none => (⟨"", none, none⟩,
               set_street cache postcode street none none "" "geocode_not_found", 1)
    | some (glat, glon) =>
      (⟨env.areaResult, some glat, some glon⟩,
       set_street cache postcode street (some glat) (some glon) env.areaResult "ok", 1)

/-! ### District geocoding (utils.py, geocode_district) -/

/-- One candidate from the Nominatim free-text search: coordinates and the
postcode from its address details (empty string when absent). -/
structure NomResult where
  lat : ℝ
  lon : ℝ
  postcode : String

/-- The exact matches of the Nominatim fallback: candidates whose
uppercased postcode starts with the uppercased district followed by a
space. -/
def exactMatches (district : String) (results : List NomResult) : List NomResult :=
  results.filter (fun r => pyStartsWith (pyUpper r.postcode) (pyUpper district ++ " "))

/-- The Nominatim fallback of geocode_district, given the parsed response:
zero candidates yield none; with exact matches their mean latitude and
longitude is returned; otherwise the first candidate. -/
noncomputable def nominatim_fallback (district : String) (results : List NomResult) :
    Option (ℝ × ℝ) :=
  match results with
  | [] => none
  | r0 :: _ =>
    if (exactMatches district results).isEmpty then some (r0.lat, r0.lon)
    else some (((exactMatches district results).map NomResult.lat).sum /
                 ((exactMatches district results).length : ℝ),
               ((exactMatches district results).map NomResult.lon).sum /
                 ((exactMatches district results).length : ℝ))

/-- Environment for one district geocoding: the cached coordinate if any,
the outcome of the postcodes.io primary lookup (none on exception or a
response without a usable result, both of which fall through), and the
parsed candidate list of the Nominatim fallback. -/
structure GeoEnv where
  cached : Option (ℝ × ℝ)
  primary : Option (ℝ × ℝ)
  secondary : List NomResult

/-- utils.geocode_district: cache hit, then primary provider, then the
Nominatim fallback.  The cache write-backs do not affect the returned
value and are elided. -/
noncomputable def geocode_district (env : GeoEnv) (district : String) :
    Option (ℝ × ℝ) :=
  match env.cached with
  | some c => some c
  | none =>
    match env.primary with
    | some c => some c
    | none => nominatim_fallback district env.secondary

/-! ### POI and street extraction (processor.py) -/

/-- A raw Overpass response element. -/
structure Element where
  type : String
  id : ℤ
  lat : Option ℝ
  lon : Option ℝ
  center : Option (ℝ × ℝ)
  tags : List (String × String)

/-- Python tags.get(k): first binding of the key, if any. -/
def tagOf (e : Element) (k : String) : Option String :=
  match e.tags.find? (fun q => decide (q.1 = k)) with
  | some q => some q.2
  | none => none

/-- Python tags.get(k, ""). -/
def tagD (e : Element) (k : String) : String := (tagOf e k).getD ""

/-- Coordinate resolution of _extract_pois: nodes use their own lat/lon
(the source indexes them unconditionally; Overpass nodes always carry
them), any other element needs a center field, else it is skipped. -/
def coordsOf (e : Element) : Option (ℝ × ℝ) :=
  if e.type = "node" then
    match e.lat, e.lon with
    | some la, some lo => some (la, lo)
    | _, _ => none
  else
    match e.center with
    | some c => some c
    | none => none

/-- Postcode normalization of _extract_pois: uppercase, spaces stripped. -/
def normalize_postcode (pc : String) : String := pyRemoveSpaces (pyUpper pc)

/-- A POI as built by _extract_pois. -/
structure Poi where
  id : ℤ
  type : String
  lat : ℝ
  lon : ℝ
  tags : List (String × String)
  street : Option String
  postcode : String
  name : Option String
  shop : Option String
  amenity : Option String
  office : Option String
  building : Option String
  landuse : Option String

/-- Loop body of _extract_pois for one element: skip without coordinates;
if a postcode tag is present and its normalization does not start with
the target district, skip; otherwise build the POI record. -/
def poiOfElement (district : String) (e : Element) : Option Poi :=
  match coordsOf e with
  | none => none
  | some (la, lo) =>
    let pc := tagD e "addr:postcode"
    if pc ≠ "" ∧ pyStartsWith (normalize_postcode pc) district = false then none
    else some
      { id := e.id, type := e.type, lat := la, lon := lo, tags := e.tags
        street := tagOf e "addr:street", postcode := pc
        name := tagOf e "name", shop := tagOf e "shop"
        amenity := tagOf e "amenity", office := tagOf e "office"
        building := tagOf e "building", landuse := tagOf e "landuse" }

/-- DistrictProcessor._extract_pois. -/
def extract_pois (district : String) (data : List Element) : List Poi :=
  data.filterMap (poiOfElement district)

/-- A street as built by _extract_streets. -/
structure Street where
  id : ℤ
  name : String
  lat : ℝ
  lon : ℝ
  highway_type : Option String

/-- Loop body of _extract_streets: a name tag (non-empty, Python
truthiness) and a center coordinate are required. -/
def streetOfElement (e : Element) : Option Street :=
  match tagOf e "name" with
  | none => none
  | some n =>
    if n = "" then none
    else
      match e.center with
      | none => none
      | some (la, lo) =>
        some { id := e.id, name := n, lat := la, lon := lo,
               highway_type := tagOf e "highway" }

/-- DistrictProcessor._extract_streets. -/
def extract_streets (data : List Element) : List Street :=
  data.filterMap streetOfElement

/-! ### Attribution (processor.py, _attribute_pois_to_streets and
_find_nearest_street) -/

/-- The distance computed inside the _find_nearest_street loop. -/
noncomputable def street_dist (p : Poi) (st : Street) : ℝ :=
  haversine_distance p.lat p.lon st.lat st.lon

/-- The scan of _find_nearest_street once a candidate exists: keep the
current (nearest_street, min_distance) pair, replacing it only on a
strictly smaller distance. -/
noncomputable def nearestGo (p : Poi) : List Street → String → ℝ → String × ℝ
  | [], n, d => (n, d)
  | st :: rest, n, d =>
    if street_dist p st < d then nearestGo p rest st.name (street_dist p st)
    else nearestGo p rest n d

/-- DistrictProcessor._find_nearest_street: empty street list yields none;
otherwise the loop starts from (None, inf), so its first iteration always
installs the first street (every haversine value is a finite real), and
the result is returned only when the minimum distance is within
max_assign_m. -/
noncomputable def find_nearest_street (streets : List Street) (maxAssign : ℝ)
    (p : Poi) : Option String :=
  match streets with
  | [] => none
  | st :: rest =>
    let r := nearestGo p rest st.name (street_dist p st)
    if r.2 ≤ maxAssign then some r.1 else none

/-- Street choice for one POI in _attribute_pois_to_streets: the
addr:street tag when truthy (present and non-empty), else the nearest
street. -/
noncomputable def assign_street (streets : List Street) (maxAssign : ℝ)
    (p : Poi) : Option String :=
  match p.street with
  | some s => if s = "" then find_nearest_street streets maxAssign p else some s
  | none => find_nearest_street streets maxAssign p

/-- Counter increment: street_counts[street_name] += 1, keyed in insertion
order like a Python dict. -/
def bumpCount (l : List (String × ℕ)) (k : String) : List (String × ℕ) :=
  if l.any (fun q => decide (q.1 = k)) then
    l.map (fun q => if q.1 = k then (q.1, q.2 + 1) else q)
  else l ++ [(k, 1)]

/-- defaultdict(list) append: street_to_pois[street_name].append(poi). -/
def addPoi (l : List (String × List Poi)) (k : String) (p : Poi) :
    List (String × List Poi) :=
  if l.any (fun q => decide (q.1 = k)) then
    l.map (fun q => if q.1 = k then (q.1, q.2 ++ [p]) else q)
  else l ++ [(k, [p])]

/-- DistrictProcessor._attribute_pois_to_streets: per-street counts and
the street -> attributed POIs mapping. -/
noncomputable def attribute_pois_to_streets (streets : List Street) (maxAssign : ℝ)
    (pois : List Poi) : List (String × ℕ) × List (String × List Poi) :=
  pois.foldl (fun acc p =>
    match assign_street streets maxAssign p with
    | none => acc
    | some n => (bumpCount acc.1 n, addPoi acc.2 n p)) ([], [])

/-! ### Ranking and result building (processor.py) -/

/-- config.TOP_N_STREETS. -/
def TOP_N_STREETS : ℕ := 3

/-- Stable descending insertion by count; together with sortByCountDesc
this is extensionally the stable descending sort that Python's
sorted(key=count, reverse=True) and list.sort perform. -/
def insertByCountDesc (x : String × ℕ) : List (String × ℕ) → List (String × ℕ)
  | [] => [x]
  | y :: ys => if x.2 ≥ y.2 then x :: y :: ys else y :: insertByCountDesc x ys

/-- Stable sort by count descending. -/
def sortByCountDesc (l : List (String × ℕ)) : List (String × ℕ) :=
  l.foldr insertByCountDesc []

/-- DistrictProcessor._rank_streets: sort the counter items (insertion
order) by count descending, take the top 3. -/
def rank_streets (street_counts : List (String × ℕ)) : List (String × ℕ) :=
  (sortByCountDesc street_counts).take TOP_N_STREETS

/-- One iteration of the counting loop of _filter_streets_by_postcode:
POIs without a postcode are ignored; the rest are tallied as in-district
(normalized postcode starts with the target district) or
other-district. -/
def tallyStep (district : String) (acc : ℕ × ℕ) (p : Poi) : ℕ × ℕ :=
  if p.postcode = "" then acc
  else if pyStartsWith (normalize_postcode p.postcode) district then
    (acc.1 + 1, acc.2)
  else (acc.1, acc.2 + 1)

/-- The (district_count, other_district_count) tally of
_filter_streets_by_postcode. -/
def postcodeTally (district : String) (pois : List Poi) : ℕ × ℕ :=
  pois.foldl (tallyStep district) (0, 0)

/-- DistrictProcessor._filter_streets_by_postcode: keep the street when no
attributed POI carries a postcode, or when in-district POIs are at least
as many as other-district ones. -/
def filter_streets_by_postcode (district : String)
    (street_to_pois : List (String × List Poi)) (street_name : String) : Bool :=
  let t := postcodeTally district (alistGetD street_to_pois street_name [])
  if t.1 = 0 ∧ t.2 = 0 then true
  else decide (t.2 ≤ t.1)

/-- Loop body of the all_streets construction in _build_result: skip names
already collected, names with zero POI count, and names rejected by the
postcode filter; otherwise append (name, count). -/
def allStreetsStep (district : String) (counts : List (String × ℕ))
    (stp : List (String × List Poi)) (m : List (String × ℕ)) (st : Street) :
    List (String × ℕ) :=
  if m.any (fun q => decide (q.1 = st.name)) then m
  else if alistGetD counts st.name 0 = 0 then m
  else if filter_streets_by_postcode district stp st.name = false then m
  else m ++ [(st.name, alistGetD counts st.name 0)]

/-- The all_streets list of _build_result: distinct extracted street
names, zero counts and postcode-inconsistent names excluded, sorted by
count descending. -/
def build_all_streets (district : String) (streets : List Street)
    (counts : List (String × ℕ)) (stp : List (String × List Poi)) :
    List (String × ℕ) :=
  sortByCountDesc (streets.foldl (allStreetsStep district counts stp) [])

/-- Padding of the top list to exactly TOP_N_STREETS entries. -/
def padTop (top : List (String × ℕ)) : List (String × ℕ) :=
  top ++ List.replicate (TOP_N_STREETS - top.length) ("", 0)

/-- The per-district result record.  all_streets is an Option because
_build_error_result omits that key. -/
structure ResultRecord where
  district : String
  success : Bool
  error : Option String
  total_pois : ℕ
  total_streets_found : ℕ
  street_1 : String
  count_1 : ℕ
  street_2 : String
  count_2 : ℕ
  street_3 : String
  count_3 : ℕ
  all_streets : Option (List (String × ℕ))

/-- DistrictProcessor._build_result. -/
def build_result (district : String) (pois : List Poi) (streets : List Street)
    (counts : List (String × ℕ)) (stp : List (String × List Poi))
    (top : List (String × ℕ)) : ResultRecord :=
  let t := padTop top
  { district := district
    success := true
    error := none
    total_pois := pois.length
    total_streets_found := streets.length
    street_1 := (t.getD 0 ("", 0)).1
    count_1 := (t.getD 0 ("", 0)).2
    street_2 := (t.getD 1 ("", 0)).1
    count_2 := (t.getD 1 ("", 0)).2
    street_3 := (t.getD 2 ("", 0)).1
    count_3 := (t.getD 2 ("", 0)).2
    all_streets := some (build_all_streets district streets counts stp) }

/-- DistrictProcessor._build_error_result. -/
def build_error_result (district : String) (error : String) : ResultRecord :=
  { district := district, success := false, error := some error
    total_pois := 0, total_streets_found := 0
    street_1 := "", count_1 := 0, street_2 := "", count_2 := 0
    street_3 := "", count_3 := 0, all_streets := none }

/-- Outcome of one outbound HTTP interaction: a parsed value, or the
message of the exception it raised (after the retry policy was
exhausted). -/
inductive ExtResult (α : Type) where
  | ok (val : α)
  | exn (msg : String)

/-- Environment of one DistrictProcessor.process run: outcome of the
district geocoding, of the POI Overpass query, and of the highway
Overpass query. -/
structure Env where
  geocode : ExtResult (Option (ℝ × ℝ))
  poiResponse : ExtResult (List Element)
  highwayResponse : ExtResult (List Element)

/-- DistrictProcessor.process: the pipeline with its top-level
try/except.  Every exception raised by a step becomes an error result;
a geocoding miss becomes the dedicated error message; zero extracted
POIs short-circuit to a success result before the highway query. -/
noncomputable def process (district : String) (maxAssign : ℝ) (env : Env) :
    ResultRecord :=
  match env.geocode with
  | .exn m => build_error_result district m
  | .ok none =>
    build_error_result district ("Could not geocode district: " ++ district)
  | .ok (some _coords) =>
    match env.poiResponse with
    | .exn m => build_error_result district m
    | .ok poiData =>
      let pois := extract_pois district poiData
      if pois.isEmpty then build_result district pois [] [] [] []
      else
        match env.highwayResponse with
        | .exn m => build_error_result district m
        | .ok hwData =>
          let streets := extract_streets hwData
          let att := attribute_pois_to_streets streets maxAssign pois
          build_result district pois streets att.1 att.2 (rank_streets att.1)

/-! ### Concrete inputs used by witnesses and counterexamples -/

/-- A Nominatim fallback environment: cache miss, primary failure, two
candidates that are exact matches for district SE1. -/
noncomputable def envC7 : GeoEnv :=
  { cached := none, primary := none,
    secondary := [⟨51, -0.1, "SE1 7AB"⟩, ⟨51.2, -0.3, "SE1 9XX"⟩] }

/-- A node element with postcode "SE1 7PB". -/
noncomputable def elemSE1 : Element :=
  { type := "node", id := 1, lat := some 51.5, lon := some (-0.09),
    center := none, tags := [("addr:postcode", "SE1 7PB")] }

/-- A node element with postcode "SE11 5PQ". -/
noncomputable def elemSE11 : Element :=
  { type := "node", id := 2, lat := some 51.49, lon := some (-0.11),
    center := none, tags := [("addr:postcode", "SE11 5PQ")] }

/-- A node element with postcode "SW1A 1AA". -/
noncomputable def elemSW1A : Element :=
  { type := "node", id := 3, lat := some 51.5, lon := some (-0.14),
    center := none, tags := [("addr:postcode", "SW1A 1AA")] }

/-- A node element carrying only a street-address hint "Baker Street". -/
noncomputable def elemBaker : Element :=
  { type := "node", id := 4, lat := some 0, lon := some 0,
    center := none, tags := [("addr:street", "Baker Street")] }

/-- A named way element for "Oxford Street". -/
noncomputable def elemOxford : Element :=
  { type := "way", id := 5, lat := none, lon := none,
    center := some (0, 0),
    tags := [("name", "Oxford Street"), ("highway", "residential")] }

/-- A processing environment whose only POI carries the hint
"Baker Street" while the only fetched street is "Oxford Street". -/
noncomputable def envHint : Env :=
  { geocode := .ok (some (0, 0)), poiResponse := .ok [elemBaker],
    highwayResponse := .ok [elemOxford] }

/-- A POI carrying the street-address hint "Baker Street". -/
noncomputable def poiBaker : Poi :=
  { id := 4, type := "node", lat := 0, lon := 0,
    tags := [("addr:street", "Baker Street")], street := some "Baker Street",
    postcode := "", name := none, shop := none, amenity := none,
    office := none, building := none, landuse := none }

/-- The street extracted from elemOxford. -/
noncomputable def stOxford : Street :=
  { id := 5, name := "Oxford Street", lat := 0, lon := 0,
    highway_type := some "residential" }

/-- A POI with the given identifier and postcode tag and no street hint. -/
noncomputable def poiWithPostcode (n : ℤ) (pc : String) : Poi :=
  { id := n, type := "node", lat := 0, lon := 0,
    tags := [("addr:postcode", pc)], street := none, postcode := pc,
    name := none, shop := none, amenity := none, office := none,
    building := none, landuse := none }

/-- Street-to-POI map: street "A" with three in-district (SE1) and one
other-district postcode. -/
noncomputable def stp31 : List (String × List Poi) :=
  [("A", [poiWithPostcode 11 "SE1 1AA", poiWithPostcode 12 "SE1 2BB",
          poiWithPostcode 13 "SE1 3CC", poiWithPostcode 14 "SW1A 1AA"])]

/-- Street-to-POI map: street "B" with one in-district and three
other-district postcodes. -/
noncomputable def stp13 : List (String × List Poi) :=
  [("B", [poiWithPostcode 21 "SE1 1AA", poiWithPostcode 22 "SW1A 2BB",
          poiWithPostcode 23 "SW1A 3CC", poiWithPostcode 24 "SW1A 4DD"])]

/-- Street-to-POI map: street "C" whose POIs carry no postcodes. -/
noncomputable def stp00 : List (String × List Poi) :=
  [("C", [poiWithPostcode 31 "", poiWithPostcode 32 ""])]

/-! ### Theorems -/

/-- C8: the great-circle distance as implemented is a pure function,
symmetric in its two coordinate arguments and zero on the diagonal; it is
the haversine formula with Earth radius 6371000 m by definition of
haversine_distance. -/
theorem C8_haversine_symm_and_diag_zero :
    (∀ lat1 lon1 lat2 lon2 : ℝ,
       haversine_distance lat1 lon1 lat2 lon2 =
         haversine_distance lat2 lon2 lat1 lon1) ∧
    (∀ lat lon : ℝ, haversine_distance lat lon lat lon = 0) := by
  constructor
  · intro lat1 lon1 lat2 lon2
    have ha : hav_a lat1 lon1 lat2 lon2 = hav_a lat2 lon2 lat1 lon1 := by
      unfold hav_a radians
      have h1 : (lat1 - lat2) * Real.pi / 180 = -((lat2 - lat1) * Real.pi / 180) := by
        ring
      have h2 : (lon1 - lon2) * Real.pi / 180 = -((lon2 - lon1) * Real.pi / 180) := by
        ring
      rw [h1, h2, neg_div, neg_div, Real.sin_neg, Real.sin_neg]
      ring
    unfold haversine_distance
    rw [ha]
  · intro lat lon
    have ha : hav_a lat lon lat lon = 0 := by
      unfold hav_a radians
      have h0 : (lat - lat) * Real.pi / 180 / 2 = 0 := by ring
      have h0' : (lon - lon) * Real.pi / 180 / 2 = 0 := by ring
      rw [h0, h0', Real.sin_zero]
      ring
    unfold haversine_distance
    rw [ha, Real.sqrt_zero, sub_zero, Real.sqrt_one]
    unfold atan2
    rw [if_pos (by norm_num : (0:ℝ) < 1), zero_div, Real.arctan_zero]
    ring

/-- The while-loop of acquire_with_wait returns at the first successful
attempt within its budget, having slept 0.5 s per preceding failure. -/
theorem acquireLoop_acquired (succ : ℕ → Bool) :
    ∀ (remaining attempt n : ℕ), attempt ≤ n → n ≤ attempt + remaining →
      succ n = true → (∀ m, attempt ≤ m → m < n → succ m = false) →
      acquireLoop succ remaining attempt = .acquired n ((n : ℚ) * (1/2)) := by
  intro remaining
  induction remaining with
  | zero =>
    intro attempt n h1 h2 hs _hmin
    have hna : n = attempt := by omega
    subst hna
    simp [acquireLoop, hs]
  | succ k ih =>
    intro attempt n h1 h2 hs hmin
    rcases eq_or_lt_of_le h1 with h | h
    · subst h
      simp [acquireLoop, hs]
    · have hfail : succ attempt = false := hmin attempt le_rfl h
      simp only [acquireLoop, hfail, Bool.false_eq_true, if_false]
      exact ih (attempt + 1) n h (by omega) hs
        (fun m hm1 hm2 => hmin m (by omega) hm2)

/-- When every attempt in the budget fails, the loop runs out and the
final unconditional attempt surfaces the exception. -/
theorem acquireLoop_allFail (succ : ℕ → Bool) :
    ∀ (remaining attempt : ℕ),
      (∀ m, attempt ≤ m → m ≤ attempt + remaining → succ m = false) →
      acquireLoop succ remaining attempt =
        .bucketFull (((attempt + remaining : ℕ) : ℚ) * (1/2)) := by
  intro remaining
  induction remaining with
  | zero =>
    intro attempt hall
    simp [acquireLoop, hall attempt le_rfl (by omega)]
  | succ k ih =>
    intro attempt hall
    simp only [acquireLoop, hall attempt le_rfl (by omega), Bool.false_eq_true,
      if_false]
    rw [ih (attempt + 1) (fun m hm1 hm2 => hall m (by omega) (by omega))]
    have harith : attempt + 1 + k = attempt + (k + 1) := by omega
    rw [harith]

/-- A surfaced BucketFullException can only happen with the full
max_wait of 10 s (= (attempt + remaining) * 0.5 from the start) behind
it. -/
theorem acquireLoop_bucketFull_waited (succ : ℕ → Bool) :
    ∀ (remaining attempt : ℕ) (w : ℚ),
      acquireLoop succ remaining attempt = .bucketFull w →
      w = ((attempt + remaining : ℕ) : ℚ) * (1/2) := by
  intro remaining
  induction remaining with
  | zero =>
    intro attempt w h
    simp only [acquireLoop] at h
    split at h
    · exact absurd h (by simp)
    · injection h with h1
      rw [← h1]
      simp
  | succ k ih =>
    intro attempt w h
    simp only [acquireLoop] at h
    split at h
    · exact absurd h (by simp)
    · have := ih (attempt + 1) w h
      rw [this]
      have harith : attempt + 1 + k = attempt + (k + 1) := by omega
      rw [harith]

/-- C5 (amended): the three geocoding call sites acquire their slot via
acquire_with_wait, which blocks rather than failing immediately — it
polls at a fixed 0.5 s interval for up to a 10 s maximum wait (returning
at the first granted attempt) and then makes one final unconditional
attempt, so a rejection can only surface after the full 10 s wait; the
map-data (Overpass) call site, however, acquires with a single bare
try_acquire, so a full bucket there surfaces an immediate rejection. -/
theorem C5_rate_limit_call_sites (succeeds : ℕ → Bool) :
    (∀ n, n ≤ 20 → succeeds n = true → (∀ m, m < n → succeeds m = false) →
       acquire_with_wait succeeds = .acquired n ((n : ℚ) * (1/2))) ∧
    ((∀ n, n ≤ 20 → succeeds n = false) →
       acquire_with_wait succeeds = .bucketFull 10) ∧
    (∀ w, acquire_with_wait succeeds = .bucketFull w → w = 10) ∧
    (succeeds 0 = false → overpass_acquire succeeds = .bucketFull 0) := by
  refine ⟨?_, ?_, ?_, ?_⟩
  · intro n hn hs hmin
    exact acquireLoop_acquired succeeds 20 0 n (Nat.zero_le n) (by omega) hs
      (fun m _ hm2 => hmin m hm2)
  · intro hall
    have h := acquireLoop_allFail succeeds 20 0 (fun m _ hm2 => hall m (by omega))
    rw [acquire_with_wait, h]
    have : (((0 + 20 : ℕ) : ℚ) * (1/2)) = 10 := by norm_num
    rw [this]
  · intro w hw
    have h := acquireLoop_bucketFull_waited succeeds 20 0 w hw
    rw [h]
    norm_num
  · intro h0
    simp [overpass_acquire, h0]

/-- Witness for C5: a limiter granting its first slot at the fourth
try_acquire is acquired at attempt 3 after 1.5 s of blocking. -/
theorem C5_rate_limit_call_sites_witness :
    acquire_with_wait (fun n => decide (n = 3)) =
      .acquired 3 (((3 : ℕ) : ℚ) * (1/2)) :=
  (C5_rate_limit_call_sites (fun n => decide (n = 3))).1 3 (by omega) (by decide)
    (fun m hm => decide_eq_false (by omega))

/-- C5 counterexample: with a bucket that never yields a slot, the
map-data call site rejects immediately (zero seconds waited), while the
geocoding wrapper only surfaces the failure after the full 10 s wait —
refuting the claim that every provider class blocks rather than failing
immediately. -/
theorem C5_counterexample :
    overpass_acquire (fun _ => false) = .bucketFull 0 ∧
    acquire_with_wait (fun _ => false) = .bucketFull 10 := by
  constructor
  · rfl
  · have h := acquireLoop_allFail (fun _ => false) 20 0 (fun m _ _ => rfl)
    rw [acquire_with_wait, h]
    have : (((0 + 20 : ℕ) : ℚ) * (1/2)) = 10 := by norm_num
    rw [this]

/-- A set_street upsert is visible to the next get_street on the same
key. -/
theorem get_street_set_street (cache : List (String × StreetEntry))
    (postcode street : String) (lat lon : Option ℝ) (area raw : String) :
    get_street (set_street cache postcode street lat lon area raw) postcode street =
      some ⟨lat, lon, area, raw⟩ := by
  unfold get_street set_street
  induction cache with
  | nil => simp
  | cons a l ih =>
    by_cases ha : a.1 = street_key postcode street
    · have hany : (a :: l).any
          (fun q => decide (q.1 = street_key postcode street)) = true := by
        simp [List.any_cons, ha]
      rw [if_pos hany]
      simp [List.find?, ha]
    · by_cases hl : l.any (fun q => decide (q.1 = street_key postcode street)) = true
      · have hany : (a :: l).any
            (fun q => decide (q.1 = street_key postcode street)) = true := by
          simp [List.any_cons, hl]
        rw [if_pos hany]
        rw [if_pos hl] at ih
        simpa [List.find?, ha] using ih
      · have hany : (a :: l).any
            (fun q => decide (q.1 = street_key postcode street)) = false := by
          simp only [List.any_cons, Bool.or_eq_false_iff]
          exact ⟨by simp [ha], Bool.eq_false_iff.mpr hl⟩
        rw [if_neg (by simp [hany])]
        rw [if_neg hl] at ih
        simpa [List.find?, ha] using ih

/-- C6 (amended): the street cache does store negative results — after a
failed lookup is written, get_street returns the coordinate-less entry
for the key — but get_area_and_coords does not use them: it returns
directly from the cache (zero provider calls) only when a cached entry
has both coordinates, and with a cached negative entry it queries the
geocoding provider again (one provider call). -/
theorem C6_negative_cache_not_consulted (env : StreetGeoEnv)
    (cache : List (String × StreetEntry)) (postcode street area raw : String) :
    (get_street (set_street cache postcode street none none area raw)
        postcode street = some ⟨none, none, area, raw⟩) ∧
    (∀ e la lo, get_street cache postcode street = some e → e.lat = some la →
       e.lon = some lo →
       get_area_and_coords env cache postcode street =
         (⟨e.area, some la, some lo⟩, cache, 0)) ∧
    (∀ e, get_street cache postcode street = some e → e.lat = none →
       (get_area_and_coords env cache postcode street).2.2 = 1) := by
  refine ⟨get_street_set_street cache postcode street none none area raw, ?_, ?_⟩
  · intro e la lo he hla hlo
    rcases e with ⟨elat, elon, earea, eraw⟩
    simp only at hla hlo
    subst hla
    subst hlo
    unfold get_area_and_coords
    rw [he]
  · intro e he hla
    rcases e with ⟨elat, elon, earea, eraw⟩
    simp only at hla
    subst hla
    unfold get_area_and_coords
    rw [he]
    rcases env.geocodeResult with _ | ⟨glat, glon⟩ <;> simp

/-- Witness for C6: a concrete cache holding only the negative entry for
key ("E1", "Fake Street") still leads to one provider call. -/
theorem C6_negative_cache_not_consulted_witness :
    (get_area_and_coords ⟨none, ""⟩
        (set_street [] "E1" "Fake Street" none none "" "geocode_not_found")
        "E1" "Fake Street").2.2 = 1 :=
  (C6_negative_cache_not_consulted ⟨none, ""⟩
      (set_street [] "E1" "Fake Street" none none "" "geocode_not_found")
      "E1" "Fake Street" "" "geocode_not_found").2.2
    ⟨none, none, "", "geocode_not_found"⟩ rfl rfl

/-- C6 counterexample: with a provider that cannot resolve the street,
the first get_area_and_coords call writes the negative entry, yet a
second call for the same key still queries the geocoding provider once
(instead of returning the cached absent outcome with zero provider
calls), refuting the claim. -/
theorem C6_counterexample :
    get_street ((get_area_and_coords ⟨none, ""⟩ [] "E1" "Fake Street").2.1)
        "E1" "Fake Street" = some ⟨none, none, "", "geocode_not_found"⟩ ∧
    (get_area_and_coords ⟨none, ""⟩
        ((get_area_and_coords ⟨none, ""⟩ [] "E1" "Fake Street").2.1)
        "E1" "Fake Street").2.2 = 1 := by
  constructor
  · rfl
  · rfl

/-- C7: in the Nominatim fallback of district geocoding (cache miss,
primary provider failed), the exact matches are precisely the candidates
whose uppercased postcode starts with the uppercased district followed by
a space; when exact matches exist the arithmetic means of their
latitudes and longitudes are returned; when none exist the first
candidate's coordinate is returned; and zero candidates yield an absent
result without an exception. -/
theorem C7_nominatim_fallback_centroid (district : String) (env : GeoEnv)
    (hc : env.cached = none) (hp : env.primary = none) :
    (∀ r, r ∈ exactMatches district env.secondary ↔
       r ∈ env.secondary ∧
         pyStartsWith (pyUpper r.postcode) (pyUpper district ++ " ") = true) ∧
    (exactMatches district env.secondary ≠ [] →
       geocode_district env district =
         some (((exactMatches district env.secondary).map NomResult.lat).sum /
                 ((exactMatches district env.secondary).length : ℝ),
               ((exactMatches district env.secondary).map NomResult.lon).sum /
                 ((exactMatches district env.secondary).length : ℝ))) ∧
    (∀ r rest, env.secondary = r :: rest →
       exactMatches district env.secondary = [] →
       geocode_district env district = some (r.lat, r.lon)) ∧
    (env.secondary = [] → geocode_district env district = none) := by
  refine ⟨?_, ?_, ?_, ?_⟩
  · intro r
    simp [exactMatches, List.mem_filter]
  · intro hne
    unfold geocode_district
    rw [hc, hp]
    rcases hsec : env.secondary with _ | ⟨r0, rest⟩
    · rw [hsec] at hne
      simp [exactMatches] at hne
    · rw [hsec] at hne
      have hie : (exactMatches district (r0 :: rest)).isEmpty = false := by
        rcases hx : exactMatches district (r0 :: rest) with _ | _
        · exact absurd hx hne
        · rfl
      simp only [nominatim_fallback, hie, Bool.false_eq_true, if_false]
  · intro r rest hsec hempty
    unfold geocode_district
    rw [hc, hp, hsec]
    rw [hsec] at hempty
    simp only [nominatim_fallback, hempty, List.isEmpty_nil, if_true]
  · intro hsec
    unfold geocode_district
    rw [hc, hp, hsec]
    rfl

/-- Witness for C7: primary failure with two exact matches at
(51, -0.1) and (51.2, -0.3) yields the centroid (51.1, -0.2). -/
theorem C7_nominatim_fallback_centroid_witness :
    geocode_district envC7 "SE1" = some (51.1, -0.2) := by
  have hx : exactMatches "SE1" envC7.secondary =
      [⟨51, -0.1, "SE1 7AB"⟩, ⟨51.2, -0.3, "SE1 9XX"⟩] := rfl
  have h := (C7_nominatim_fallback_centroid "SE1" envC7 rfl rfl).2.1
    (by rw [hx]; simp)
  rw [h, hx]
  simp only [List.map_cons, List.map_nil, List.sum_cons, List.sum_nil,
    List.length_cons, List.length_nil, Option.some.injEq, Prod.mk.injEq]
  norm_num

/-- C2: during POI extraction, an element with resolvable coordinates is
dropped by the postcode filter iff it carries a non-empty postcode tag
whose normalization (uppercased, spaces stripped) does not start with the
(normalized) target district; elements without a postcode tag pass the
filter. -/
theorem C2_postcode_filter (district : String) (e : Element) (la lo : ℝ)
    (_hd : normalize_postcode district = district)
    (hc : coordsOf e = some (la, lo)) :
    poiOfElement district e = none ↔
      (tagD e "addr:postcode" ≠ "" ∧
       pyStartsWith (normalize_postcode (tagD e "addr:postcode")) district =
         false) := by
  simp only [poiOfElement, hc]
  by_cases h : tagD e "addr:postcode" ≠ "" ∧
      pyStartsWith (normalize_postcode (tagD e "addr:postcode")) district = false
  · simp [h]
  · simp [h]

/-- Witness for C2: for target district "SE1", postcode "SW1A 1AA" is
dropped while "SE1 7PB" and the sub-district "SE11 5PQ" are retained. -/
theorem C2_postcode_filter_witness :
    poiOfElement "SE1" elemSW1A = none ∧
    poiOfElement "SE1" elemSE1 ≠ none ∧
    poiOfElement "SE1" elemSE11 ≠ none := by
  refine ⟨?_, ?_, ?_⟩
  · exact (C2_postcode_filter "SE1" elemSW1A 51.5 (-0.14) rfl rfl).mpr
      ⟨by decide, by decide⟩
  · intro hnone
    have h := (C2_postcode_filter "SE1" elemSE1 51.5 (-0.09) rfl rfl).mp hnone
    exact absurd h.2 (by decide)
  · intro hnone
    have h := (C2_postcode_filter "SE1" elemSE11 51.49 (-0.11) rfl rfl).mp hnone
    exact absurd h.2 (by decide)

/-- C3 (amended): process never propagates an exception — every exception
raised by a pipeline step (geocoding, POI query, highway query) is caught
at the top level and converted into a failure result whose success flag
is false, whose error field holds the exception message, and whose POI
count, street count and all three street/count slots are zero/empty; a
geocoding miss yields the failure message
"Could not geocode district: <id>" (the code capitalizes "Could", unlike
the lowercase form quoted in the claim). -/
theorem C3_process_error_containment (district : String) (maxAssign : ℝ)
    (env : Env) (msg : String) :
    (env.geocode = .exn msg →
       process district maxAssign env = build_error_result district msg) ∧
    (∀ c, env.geocode = .ok (some c) → env.poiResponse = .exn msg →
       process district maxAssign env = build_error_result district msg) ∧
    (∀ c poiData, env.geocode = .ok (some c) → env.poiResponse = .ok poiData →
       extract_pois district poiData ≠ [] → env.highwayResponse = .exn msg →
       process district maxAssign env = build_error_result district msg) ∧
    (env.geocode = .ok none →
       process district maxAssign env =
         build_error_result district ("Could not geocode district: " ++ district)) ∧
    ((build_error_result district msg).success = false ∧
     (build_error_result district msg).error = some msg ∧
     (build_error_result district msg).total_pois = 0 ∧
     (build_error_result district msg).total_streets_found = 0 ∧
     (build_error_result district msg).street_1 = "" ∧
     (build_error_result district msg).count_1 = 0 ∧
     (build_error_result district msg).street_2 = "" ∧
     (build_error_result district msg).count_2 = 0 ∧
     (build_error_result district msg).street_3 = "" ∧
     (build_error_result district msg).count_3 = 0) := by
  refine ⟨?_, ?_, ?_, ?_, ?_⟩
  · intro h
    simp only [process, h]
  · intro c hg hp
    simp only [process, hg, hp]
  · intro c poiData hg hp hne hh
    have hie : (extract_pois district poiData).isEmpty = false := by
      rcases hx : extract_pois district poiData with _ | _
      · exact absurd hx hne
      · rfl
    simp only [process, hg, hp, hie, Bool.false_eq_true, if_false, hh]
  · intro h
    simp only [process, h]
  · exact ⟨rfl, rfl, rfl, rfl, rfl, rfl, rfl, rfl, rfl, rfl⟩

/-- Witness for C3: a geocoding exception "boom" is contained as a
failure result with success false. -/
theorem C3_process_error_containment_witness :
    process "SE1" 200 ⟨.exn "boom", .ok [], .ok []⟩ =
      build_error_result "SE1" "boom" ∧
    (build_error_result "SE1" "boom").success = false :=
  ⟨(C3_process_error_containment "SE1" 200 ⟨.exn "boom", .ok [], .ok []⟩
      "boom").1 rfl,
   (C3_process_error_containment "SE1" 200 ⟨.exn "boom", .ok [], .ok []⟩
      "boom").2.2.2.2.1⟩

/-- C3 counterexample: when geocoding returns absent, the code writes the
message with a capital C, so the error is not the claimed lowercase
"could not geocode district: SE1". -/
theorem C3_counterexample :
    (process "SE1" 200 ⟨.ok none, .ok [], .ok []⟩).error =
      some "Could not geocode district: SE1" ∧
    (process "SE1" 200 ⟨.ok none, .ok [], .ok []⟩).error ≠
      some "could not geocode district: SE1" := by
  constructor
  · rfl
  · decide

/-- C4: when POI extraction yields zero POIs, process short-circuits to a
success result with total_pois zero, zero street count, three empty
street slots and an empty full list — and the result is the same for
every highway-query environment, so the street query is never built or
executed. -/
theorem C4_zero_pois_short_circuit (district : String) (maxAssign : ℝ)
    (c : ℝ × ℝ) (poiData : List Element) (hw : ExtResult (List Element))
    (h : extract_pois district poiData = []) :
    process district maxAssign ⟨.ok (some c), .ok poiData, hw⟩ =
      { district := district, success := true, error := none,
        total_pois := 0, total_streets_found := 0,
        street_1 := "", count_1 := 0, street_2 := "", count_2 := 0,
        street_3 := "", count_3 := 0, all_streets := some [] } := by
  simp only [process, h]
  rfl

/-- Witness for C4: an empty POI response short-circuits as claimed. -/
theorem C4_zero_pois_short_circuit_witness :
    process "SE1" 200 ⟨.ok (some (0, 0)), .ok [], .ok []⟩ =
      { district := "SE1", success := true, error := none, total_pois := 0,
        total_streets_found := 0, street_1 := "", count_1 := 0, street_2 := "",
        count_2 := 0, street_3 := "", count_3 := 0, all_streets := some [] } :=
  C4_zero_pois_short_circuit "SE1" 200 (0, 0) [] (.ok []) rfl

/-- Invariant of the _find_nearest_street scan: starting from candidate
(n, d), the final pair carries the minimum of d and all scanned
distances, and its name is the initial candidate when nothing was
strictly smaller, or else the name of the first street realizing the
strict minimum (earlier streets all have strictly larger distance, since
only strictly smaller distances replace the candidate). -/
theorem nearestGo_spec (p : Poi) :
    ∀ (l : List Street) (n : String) (d : ℝ),
      ((nearestGo p l n d).2 ≤ d ∧
        ∀ st ∈ l, (nearestGo p l n d).2 ≤ street_dist p st) ∧
      (((nearestGo p l n d).1 = n ∧ (nearestGo p l n d).2 = d ∧
          ∀ st ∈ l, d ≤ street_dist p st) ∨
        (∃ pre st post, l = pre ++ st :: post ∧
          (nearestGo p l n d).1 = st.name ∧
          (nearestGo p l n d).2 = street_dist p st ∧
          street_dist p st < d ∧
          ∀ st' ∈ pre, street_dist p st < street_dist p st')) := by
  intro l
  induction l with
  | nil =>
    intro n d
    refine ⟨⟨le_rfl, ?_⟩, Or.inl ⟨rfl, rfl, ?_⟩⟩ <;>
      exact fun st h => absurd h (List.not_mem_nil st)
  | cons a rest ih =>
    intro n d
    by_cases hlt : street_dist p a < d
    · have hgo : nearestGo p (a :: rest) n d =
          nearestGo p rest a.name (street_dist p a) := by
        simp [nearestGo, hlt]
      rcases ih a.name (street_dist p a) with ⟨⟨hle1, hle2⟩, hdisj⟩
      rw [hgo]
      refine ⟨⟨le_trans hle1 (le_of_lt hlt), ?_⟩, ?_⟩
      · intro st hst
        rcases List.mem_cons.mp hst with rfl | hst'
        · exact hle1
        · exact hle2 st hst'
      · rcases hdisj with ⟨hn, hd, hall⟩ | ⟨pre, st, post, hsplit, hn, hd, hlt', hpre⟩
        · refine Or.inr ⟨[], a, rest, rfl, hn, hd, hlt, ?_⟩
          exact fun st' h => absurd h (List.not_mem_nil st')
        · refine Or.inr ⟨a :: pre, st, post, by rw [hsplit]; rfl, hn, hd,
            lt_trans hlt' hlt, ?_⟩
          intro st' hst'
          rcases List.mem_cons.mp hst' with rfl | hst''
          · exact hlt'
          · exact hpre st' hst''
    · have hge : d ≤ street_dist p a := not_lt.mp hlt
      have hgo : nearestGo p (a :: rest) n d = nearestGo p rest n d := by
        simp [nearestGo, hlt]
      rcases ih n d with ⟨⟨hle1, hle2⟩, hdisj⟩
      rw [hgo]
      refine ⟨⟨hle1, ?_⟩, ?_⟩
      · intro st hst
        rcases List.mem_cons.mp hst with rfl | hst'
        · exact le_trans hle1 hge
        · exact hle2 st hst'
      · rcases hdisj with ⟨hn, hd, hall⟩ | ⟨pre, st, post, hsplit, hn, hd, hlt', hpre⟩
        · refine Or.inl ⟨hn, hd, ?_⟩
          intro st hst
          rcases List.mem_cons.mp hst with rfl | hst'
          · exact hge
          · exact hall st hst'
        · refine Or.inr ⟨a :: pre, st, post, by rw [hsplit]; rfl, hn, hd, hlt', ?_⟩
          intro st' hst'
          rcases List.mem_cons.mp hst' with rfl | hst''
          · exact lt_of_lt_of_le hlt' hge
          · exact hpre st' hst''

/-- The scan result, on a nonempty street list, is the first street
realizing the minimum distance. -/
theorem nearestGo_first_min (p : Poi) (a : Street) (rest : List Street) :
    ∃ pre st post, a :: rest = pre ++ st :: post ∧
      (nearestGo p rest a.name (street_dist p a)).1 = st.name ∧
      (nearestGo p rest a.name (street_dist p a)).2 = street_dist p st ∧
      (∀ st' ∈ a :: rest, street_dist p st ≤ street_dist p st') ∧
      (∀ st' ∈ pre, street_dist p st < street_dist p st') := by
  rcases nearestGo_spec p rest a.name (street_dist p a) with ⟨⟨hle1, hle2⟩, hdisj⟩
  rcases hdisj with ⟨hn, hd, hall⟩ | ⟨pre, st, post, hsplit, hn, hd, hlt', hpre⟩
  · refine ⟨[], a, rest, rfl, hn, hd, ?_, ?_⟩
    · intro st' hst'
      rcases List.mem_cons.mp hst' with rfl | hst''
      · exact le_rfl
      · exact hd ▸ hle2 st' hst''
    · exact fun st' h => absurd h (List.not_mem_nil st')
  · refine ⟨a :: pre, st, post, by rw [hsplit]; rfl, hn, hd, ?_, ?_⟩
    · intro st' hst'
      rcases List.mem_cons.mp hst' with rfl | hst''
      · exact le_of_lt hlt'
      · exact hd ▸ hle2 st' hst''
    · intro st' hst'
      rcases List.mem_cons.mp hst' with rfl | hst''
      · exact hlt'
      · exact hpre st' hst''

/-- C1: attribution of a POI — a truthy street-address hint is used
verbatim, with no distance check and no validation against the fetched
streets; without a hint the POI is assigned to a street iff the minimum
haversine distance over the fetched streets is within maxAssign, and the
assigned street is the first street in iteration order realizing that
minimum (only a strictly smaller distance replaces the candidate, so the
first among exact ties wins). -/
theorem C1_attribution (p : Poi) (streets : List Street) (maxAssign : ℝ) :
    (∀ s, p.street = some s → s ≠ "" →
       assign_street streets maxAssign p = some s) ∧
    ((p.street = none ∨ p.street = some "") →
      ((assign_street streets maxAssign p = none ↔
          ∀ st ∈ streets, maxAssign < street_dist p st) ∧
       (∀ nm, assign_street streets maxAssign p = some nm →
          ∃ pre st post, streets = pre ++ st :: post ∧ nm = st.name ∧
            street_dist p st ≤ maxAssign ∧
            (∀ st' ∈ streets, street_dist p st ≤ street_dist p st') ∧
            (∀ st' ∈ pre, street_dist p st < street_dist p st')))) := by
  constructor
  · intro s hs hne
    simp only [assign_street, hs]
    rw [if_neg hne]
  · intro hhint
    have hassign : assign_street streets maxAssign p =
        find_nearest_street streets maxAssign p := by
      rcases hhint with h | h <;> simp [assign_street, h]
    rw [hassign]
    rcases streets with _ | ⟨a, rest⟩
    · constructor
      · simp [find_nearest_street]
      · intro nm hnm
        exact absurd hnm (by simp [find_nearest_street])
    · obtain ⟨pre, st, post, hsplit, hn, hd, hmin, hstrict⟩ :=
        nearestGo_first_min p a rest
      have hstmem : st ∈ a :: rest := by
        rw [hsplit]
        exact List.mem_append_right pre (List.mem_cons_self st post)
      constructor
      · constructor
        · intro hnone st' hst'
          by_cases hif : (nearestGo p rest a.name (street_dist p a)).2 ≤ maxAssign
          · exact absurd hnone (by simp [find_nearest_street, hif])
          · have h1 : maxAssign < street_dist p st := by
              rw [← hd]; exact not_le.mp hif
            exact lt_of_lt_of_le h1 (hmin st' hst')
        · intro hall
          have h1 : maxAssign < (nearestGo p rest a.name (street_dist p a)).2 := by
            rw [hd]; exact hall st hstmem
          simp [find_nearest_street, not_le.mp h1.not_le, not_le_of_gt h1]
      · intro nm hnm
        by_cases hif : (nearestGo p rest a.name (street_dist p a)).2 ≤ maxAssign
        · have hnm' : nm = (nearestGo p rest a.name (street_dist p a)).1 := by
            have := hnm
            simp only [find_nearest_street, if_pos hif, Option.some.injEq] at this
            exact this.symm
          refine ⟨pre, st, post, hsplit, by rw [hnm', hn], ?_, hmin, hstrict⟩
          rw [← hd]; exact hif
        · exact absurd hnm (by simp [find_nearest_street, hif])

/-- Witness for C1: a POI with hint "Baker Street" is assigned that
literal name even with no fetched streets at all. -/
theorem C1_attribution_witness :
    assign_street [] 0 poiBaker = some "Baker Street" :=
  (C1_attribution poiBaker [] 0).1 "Baker Street" rfl (by decide)

/-- Membership in the stable descending insertion. -/
theorem mem_insertByCountDesc (x z : String × ℕ) :
    ∀ l : List (String × ℕ), z ∈ insertByCountDesc x l ↔ z = x ∨ z ∈ l := by
  intro l
  induction l with
  | nil => simp [insertByCountDesc]
  | cons y ys ih =>
    by_cases h : x.2 ≥ y.2
    · simp only [insertByCountDesc, if_pos h, List.mem_cons]
    · simp only [insertByCountDesc, if_neg h, List.mem_cons, ih]
      tauto

/-- Inserting into a descending list keeps it descending. -/
theorem sorted_insertByCountDesc (x : String × ℕ) :
    ∀ l : List (String × ℕ), l.Pairwise (fun a b => b.2 ≤ a.2) →
      (insertByCountDesc x l).Pairwise (fun a b => b.2 ≤ a.2) := by
  intro l
  induction l with
  | nil => intro _; simp [insertByCountDesc]
  | cons y ys ih =>
    intro hp
    rw [List.pairwise_cons] at hp
    obtain ⟨hy, hys⟩ := hp
    by_cases h : x.2 ≥ y.2
    · simp only [insertByCountDesc, if_pos h]
      rw [List.pairwise_cons]
      refine ⟨?_, ?_⟩
      · intro z hz
        rcases List.mem_cons.mp hz with rfl | hz'
        · exact h
        · exact le_trans (hy z hz') h
      · rw [List.pairwise_cons]
        exact ⟨hy, hys⟩
    · simp only [insertByCountDesc, if_neg h]
      rw [List.pairwise_cons]
      refine ⟨?_, ih hys⟩
      intro z hz
      rcases (mem_insertByCountDesc x z ys).mp hz with rfl | hz'
      · exact le_of_lt (lt_of_not_ge h)
      · exact hy z hz'

/-- The stable sort preserves membership. -/
theorem mem_sortByCountDesc (z : String × ℕ) :
    ∀ l : List (String × ℕ), z ∈ sortByCountDesc l ↔ z ∈ l := by
  intro l
  induction l with
  | nil => simp [sortByCountDesc]
  | cons y ys ih =>
    have h : sortByCountDesc (y :: ys) = insertByCountDesc y (sortByCountDesc ys) :=
      rfl
    rw [h, mem_insertByCountDesc, ih, List.mem_cons]

/-- The stable sort yields a descending list. -/
theorem sorted_sortByCountDesc :
    ∀ l : List (String × ℕ),
      (sortByCountDesc l).Pairwise (fun a b => b.2 ≤ a.2) := by
  intro l
  induction l with
  | nil => simp [sortByCountDesc]
  | cons y ys ih => exact sorted_insertByCountDesc y (sortByCountDesc ys) ih

/-- Characterization of the all_streets accumulation loop: a pair belongs
to the final accumulator iff it was there initially or its name is borne
by some extracted street, its count is the attributed count of the name,
that count is nonzero, and the postcode filter passes. -/
theorem mem_allStreetsFold (district : String) (counts : List (String × ℕ))
    (stp : List (String × List Poi)) :
    ∀ (streets : List Street) (acc : List (String × ℕ)),
      (∀ q ∈ acc, q.2 = alistGetD counts q.1 0) →
      ∀ x : String × ℕ,
        (x ∈ streets.foldl (allStreetsStep district counts stp) acc ↔
          x ∈ acc ∨ ((∃ st ∈ streets, st.name = x.1) ∧
            x.2 = alistGetD counts x.1 0 ∧ x.2 ≠ 0 ∧
            filter_streets_by_postcode district stp x.1 = true)) := by
  intro streets
  induction streets with
  | nil =>
    intro acc _ x
    simp
  | cons a rest ih =>
    intro acc hinv x
    rw [List.foldl_cons]
    by_cases hany : acc.any (fun q => decide (q.1 = a.name)) = true
    · rw [show allStreetsStep district counts stp acc a = acc from by
        simp [allStreetsStep, hany]]
      rw [ih acc hinv x]
      constructor
      · rintro (hx | ⟨⟨st, hst, hname⟩, hok⟩)
        · exact Or.inl hx
        · exact Or.inr ⟨⟨st, List.mem_cons_of_mem a hst, hname⟩, hok⟩
      · rintro (hx | ⟨⟨st, hst, hname⟩, hok⟩)
        · exact Or.inl hx
        · rcases List.mem_cons.mp hst with rfl | hst'
          · rcases List.any_eq_true.mp hany with ⟨q, hq, hq2⟩
            have hq1x : q.1 = x.1 := (of_decide_eq_true hq2).trans hname
            have hq2x : q.2 = x.2 := by
              rw [hinv q hq, hq1x, ← hok.1]
            left
            have hqx : q = x := Prod.ext_iff.mpr ⟨hq1x, hq2x⟩
            exact hqx ▸ hq
          · exact Or.inr ⟨⟨st, hst', hname⟩, hok⟩
    · by_cases hc0 : alistGetD counts a.name 0 = 0
      · rw [show allStreetsStep district counts stp acc a = acc from by
          simp [allStreetsStep, hany, hc0]]
        rw [ih acc hinv x]
        constructor
        · rintro (hx | ⟨⟨st, hst, hname⟩, hok⟩)
          · exact Or.inl hx
          · exact Or.inr ⟨⟨st, List.mem_cons_of_mem a hst, hname⟩, hok⟩
        · rintro (hx | ⟨⟨st, hst, hname⟩, hok⟩)
          · exact Or.inl hx
          · rcases List.mem_cons.mp hst with rfl | hst'
            · exact absurd (hok.1.trans (by rw [← hname]; exact hc0)) hok.2.1
            · exact Or.inr ⟨⟨st, hst', hname⟩, hok⟩
      · by_cases hfil : filter_streets_by_postcode district stp a.name = false
        · rw [show allStreetsStep district counts stp acc a = acc from by
            simp [allStreetsStep, hany, hc0, hfil]]
          rw [ih acc hinv x]
          constructor
          · rintro (hx | ⟨⟨st, hst, hname⟩, hok⟩)
            · exact Or.inl hx
            · exact Or.inr ⟨⟨st, List.mem_cons_of_mem a hst, hname⟩, hok⟩
          · rintro (hx | ⟨⟨st, hst, hname⟩, hok⟩)
            · exact Or.inl hx
            · rcases List.mem_cons.mp hst with rfl | hst'
              · have htrue : filter_streets_by_postcode district stp st.name = true := by
                  rw [hname]
                  exact hok.2.2
                rw [htrue] at hfil
                exact absurd hfil (by simp)
              · exact Or.inr ⟨⟨st, hst', hname⟩, hok⟩
        · have hfil' : filter_streets_by_postcode district stp a.name = true := by
            cases h : filter_streets_by_postcode district stp a.name
            · exact absurd h hfil
            · rfl
          rw [show allStreetsStep district counts stp acc a =
              acc ++ [(a.name, alistGetD counts a.name 0)] from by
            simp [allStreetsStep, hany, hc0, hfil]]
          have hinv' : ∀ q ∈ acc ++ [(a.name, alistGetD counts a.name 0)],
              q.2 = alistGetD counts q.1 0 := by
            intro q hq
            rcases List.mem_append.mp hq with hq' | hq'
            · exact hinv q hq'
            · rw [List.mem_singleton.mp hq']
          rw [ih _ hinv' x, List.mem_append, List.mem_singleton]
          constructor
          · rintro ((hx | hx) | ⟨⟨st, hst, hname⟩, hok⟩)
            · exact Or.inl hx
            · refine Or.inr ⟨⟨a, List.mem_cons_self a rest, by rw [hx]⟩, ?_, ?_, ?_⟩
              · rw [hx]
              · rw [hx]
                exact hc0
              · rw [hx]
                exact hfil'
            · exact Or.inr ⟨⟨st, List.mem_cons_of_mem a hst, hname⟩, hok⟩
          · rintro (hx | ⟨⟨st, hst, hname⟩, hok⟩)
            · exact Or.inl (Or.inl hx)
            · rcases List.mem_cons.mp hst with rfl | hst'
              · left
                right
                refine Prod.ext_iff.mpr ⟨hname.symm, ?_⟩
                rw [hok.1, ← hname]
              · exact Or.inr ⟨⟨st, hst', hname⟩, hok⟩

/-- The tally of the postcode filter equals the pair of countP values of
the in-district and other-district predicates over postcode-carrying
POIs. -/
theorem postcodeTally_eq_countP (district : String) :
    ∀ (pois : List Poi) (a b : ℕ),
      pois.foldl (tallyStep district) (a, b) =
        (a + pois.countP (fun p => !(p.postcode == "") &&
            pyStartsWith (normalize_postcode p.postcode) district),
         b + pois.countP (fun p => !(p.postcode == "") &&
            !(pyStartsWith (normalize_postcode p.postcode) district))) := by
  intro pois
  induction pois with
  | nil =>
    intro a b
    simp
  | cons p rest ih =>
    intro a b
    rw [List.foldl_cons, List.countP_cons, List.countP_cons]
    by_cases h1 : p.postcode = ""
    · rw [show tallyStep district (a, b) p = (a, b) from by
        simp [tallyStep, h1]]
      rw [ih a b]
      have hb : (p.postcode == "") = true := beq_iff_eq.mpr h1
      simp [hb]
    · have hb : (!(p.postcode == "")) = true := by
        simp [beq_iff_eq, h1]
      by_cases h2 : pyStartsWith (normalize_postcode p.postcode) district = true
      · rw [show tallyStep district (a, b) p = (a + 1, b) from by
          simp [tallyStep, h1, h2]]
        rw [ih (a + 1) b]
        have hin : (!(p.postcode == "") &&
            pyStartsWith (normalize_postcode p.postcode) district) = true := by
          simp [hb, h2]
        have hout : (!(p.postcode == "") &&
            !(pyStartsWith (normalize_postcode p.postcode) district)) = false := by
          simp [h2]
        simp only [hin, hout, Prod.mk.injEq, if_true, if_false,
          Bool.false_eq_true, eq_self_iff_true]
        constructor <;> omega
      · have h2' : pyStartsWith (normalize_postcode p.postcode) district = false := by
          cases h : pyStartsWith (normalize_postcode p.postcode) district
          · rfl
          · exact absurd h h2
        rw [show tallyStep district (a, b) p = (a, b + 1) from by
          simp [tallyStep, h1, h2']]
        rw [ih a (b + 1)]
        have hin : (!(p.postcode == "") &&
            pyStartsWith (normalize_postcode p.postcode) district) = false := by
          simp [h2']
        have hout : (!(p.postcode == "") &&
            !(pyStartsWith (normalize_postcode p.postcode) district)) = true := by
          simp [hb, h2']
        simp only [hin, hout, Prod.mk.injEq, if_true, if_false,
          Bool.false_eq_true, eq_self_iff_true]
        constructor <;> omega

/-- C9: the full ranked street list contains exactly the pairs
(name, count) whose name is borne by some extracted street, whose count
is the attributed count of that name and is nonzero, and which pass the
postcode-consistency filter; the filter passes iff the number of
postcode-carrying attributed POIs in a different district is at most the
number in the target district (streets with no postcode-carrying POIs
pass trivially); and the list is sorted by count descending. -/
theorem C9_all_streets_list (district : String) (streets : List Street)
    (counts : List (String × ℕ)) (stp : List (String × List Poi)) :
    (∀ nm c, (nm, c) ∈ build_all_streets district streets counts stp ↔
       ((∃ st ∈ streets, st.name = nm) ∧ c = alistGetD counts nm 0 ∧ c ≠ 0 ∧
        filter_streets_by_postcode district stp nm = true)) ∧
    (build_all_streets district streets counts stp).Pairwise
      (fun a b => b.2 ≤ a.2) ∧
    (∀ nm, filter_streets_by_postcode district stp nm = true ↔
       (alistGetD stp nm []).countP (fun p => !(p.postcode == "") &&
           !(pyStartsWith (normalize_postcode p.postcode) district)) ≤
         (alistGetD stp nm []).countP (fun p => !(p.postcode == "") &&
           pyStartsWith (normalize_postcode p.postcode) district)) := by
  refine ⟨?_, ?_, ?_⟩
  · intro nm c
    unfold build_all_streets
    rw [mem_sortByCountDesc,
      mem_allStreetsFold district counts stp streets [] (by simp) (nm, c)]
    simp
  · exact sorted_sortByCountDesc _
  · intro nm
    unfold filter_streets_by_postcode
    have ht : postcodeTally district (alistGetD stp nm []) =
        ((alistGetD stp nm []).countP (fun p => !(p.postcode == "") &&
            pyStartsWith (normalize_postcode p.postcode) district),
         (alistGetD stp nm []).countP (fun p => !(p.postcode == "") &&
            !(pyStartsWith (normalize_postcode p.postcode) district))) := by
      have h := postcodeTally_eq_countP district (alistGetD stp nm []) 0 0
      unfold postcodeTally
      rw [h]
      simp
    rw [ht]
    by_cases h : ((alistGetD stp nm []).countP (fun p => !(p.postcode == "") &&
          pyStartsWith (normalize_postcode p.postcode) district) = 0 ∧
        (alistGetD stp nm []).countP (fun p => !(p.postcode == "") &&
          !(pyStartsWith (normalize_postcode p.postcode) district)) = 0)
    · rw [if_pos h]
      simp [h.1, h.2]
    · rw [if_neg h]
      simp

/-- Witness for C9: a street with 3 in-district and 1 other-district POIs
is retained, 1-in/3-other is excluded, and one with no postcodes at all
is retained. -/
theorem C9_all_streets_list_witness :
    filter_streets_by_postcode "SE1" stp31 "A" = true ∧
    filter_streets_by_postcode "SE1" stp13 "B" = false ∧
    filter_streets_by_postcode "SE1" stp00 "C" = true := by
  refine ⟨?_, ?_, ?_⟩
  · exact ((C9_all_streets_list "SE1" [] [] stp31).2.2 "A").mpr (by decide)
  · have h := (C9_all_streets_list "SE1" [] [] stp13).2.2 "B"
    cases hb : filter_streets_by_postcode "SE1" stp13 "B"
    · rfl
    · exact absurd (h.mp hb) (by decide)
  · exact ((C9_all_streets_list "SE1" [] [] stp00).2.2 "C").mpr (by decide)

/-- C10: every entry of the full ranked list bears the name of some
street extracted from the street query, so a name that received all its
POIs via street-address hints and matches no extracted street never
appears there — yet, as the concrete run envHint shows, such a name can
occupy a top-3 slot with a nonzero count. -/
theorem C10_full_list_names_only_extracted :
    (∀ (district : String) (streets : List Street) (counts : List (String × ℕ))
       (stp : List (String × List Poi)) (x : String × ℕ),
       x ∈ build_all_streets district streets counts stp →
       ∃ st ∈ streets, st.name = x.1) ∧
    ((process "SE1" 200 envHint).street_1 = "Baker Street" ∧
     (process "SE1" 200 envHint).count_1 = 1 ∧
     (process "SE1" 200 envHint).total_streets_found = 1 ∧
     (process "SE1" 200 envHint).all_streets = some []) := by
  constructor
  · intro district streets counts stp x hx
    rw [build_all_streets, mem_sortByCountDesc] at hx
    rcases (mem_allStreetsFold district counts stp streets [] (by simp) x).mp hx
      with h | ⟨⟨st, hst, hname⟩, _⟩
    · exact absurd h (List.not_mem_nil x)
    · exact ⟨st, hst, hname⟩
  · refine ⟨rfl, rfl, rfl, rfl⟩

/-- Witness for C10: the universal part applied to a concrete nonempty
full list. -/
theorem C10_full_list_names_only_extracted_witness :
    ∃ st ∈ [stOxford], st.name = "Oxford Street" :=
  C10_full_list_names_only_extracted.1 "SE1" [stOxford]
    [("Oxford Street", 2)] [] ("Oxford Street", 2) (by decide)

end StreetSignal
